import Mathlib

/-!
Verification development for the wled-server core: a shallow embedding of the
cue scheduler, the E1.31 raw transport, the pattern sequence generator, the
program engine play timeline, the board actor disconnect handling, the group
command fast path, the preset save route and the audio file store, translated
from the Rust sources, together with theorems settling the specified claims.

Modelling conventions:
* machine integers become `Nat` (with explicit `% 2^w` where wraparound
  matters) and `Int` for signed values;
* the few `f64` computations relevant to the claims are modelled over `ℚ`;
  at every concrete input used in a theorem the `f64` arithmetic of the
  source is exact (all values involved are small dyadic rationals), so the
  `ℚ` model agrees with the source bit for bit there;
* nondeterministic inputs (the wall clock, UDP send outcomes, the thread
  local PRNG shuffle, the stop flag) become explicit oracle parameters;
* fallible operations return `Except`.
-/

/-! ## E1.31 raw transport — `src/transport/e131_raw.rs`

`E131RawTransport` holds a UDP socket (not modelled), the universe, the list
of destination addresses and the `u8` sequence counter.  `create_e131_packet`
builds the 638-byte wire frame; `send_dmx_packet` sends one copy of that
frame to every destination address in `board_ips` and then increments the
sequence counter with wraparound (`wrapping_add(1)`). -/

structure E131RawTransport where
  univ : Nat
  board_ips : List String
  seq : Nat
  deriving Repr, DecidableEq

/-- Big-endian byte pair of a `u16` value (`u16::to_be_bytes`). -/
def beBytes16 (v : Nat) : List Nat :=
  [v / 256 % 256, v % 256]

/-- The `0x7000 | length` flags-and-length field, as a `u16` big-endian pair. -/
def flagsLength (len : Nat) : List Nat :=
  beBytes16 (Nat.lor 0x7000 len % 65536)

/-- The ACN packet identifier bytes `b"ASC-E1.17\0\0\0"`. -/
def acnPacketId : List Nat :=
  [65, 83, 67, 45, 69, 49, 46, 49, 55, 0, 0, 0]

/-- The static 16-byte CID used by the transport. -/
def cidBytes : List Nat :=
  [0x12, 0x34, 0x56, 0x78, 0x9a, 0xbc, 0xde, 0xf0,
   0x12, 0x34, 0x56, 0x78, 0x9a, 0xbc, 0xde, 0xf0]

/-- The 64-byte source name field: `b"WLED Rust Server"` padded with NULs. -/
def sourceNameBytes : List Nat :=
  [87, 76, 69, 68, 32, 82, 117, 115, 116, 32, 83, 101, 114, 118, 101, 114]
    ++ List.replicate 48 0

/-- `E131RawTransport::create_e131_packet`: root layer, framing layer, DMP
layer, DMX data, mirroring the Rust builder line by line. -/
def createE131Packet (t : E131RawTransport) (dmx : List Nat) : List Nat :=
  let framing_length := 88 + dmx.length
  let root_length := framing_length + 38 - 16
  [0x00, 0x10] ++ [0x00, 0x00] ++ acnPacketId
    ++ flagsLength root_length
    ++ [0x00, 0x00, 0x00, 0x04]
    ++ cidBytes
    ++ flagsLength framing_length
    ++ [0x00, 0x00, 0x00, 0x02]
    ++ sourceNameBytes
    ++ [100]
    ++ [0x00, 0x00]
    ++ [t.seq]
    ++ [0x00]
    ++ beBytes16 t.univ
    ++ flagsLength (11 + dmx.length)
    ++ [0x02]
    ++ [0xa1]
    ++ [0x00, 0x00]
    ++ [0x00, 0x01]
    ++ beBytes16 (dmx.length + 1)
    ++ [0x00]
    ++ dmx

/-- `E131RawTransport::send_dmx_packet`: one `send_to` of the same packet per
destination in `board_ips`, then `sequence = sequence.wrapping_add(1)`.
Returns the emitted `(destination, packet)` pairs and the updated transport. -/
def sendDmxPacket (t : E131RawTransport) (dmx : List Nat) :
    List (String × List Nat) × E131RawTransport :=
  (t.board_ips.map (fun ip => (ip, createE131Packet t dmx)),
   { t with seq := (t.seq + 1) % 256 })

/-- `send_dmx_packet` reports `Ok` iff at least one destination send
succeeded; `udp_ok` is the per-destination success oracle. -/
def sendDmxPacketOk (udp_ok : String → Bool) (t : E131RawTransport) : Bool :=
  t.board_ips.any udp_ok

/-! ## Shared engine data model — `src/effects/mod.rs`, `src/effects_engine.rs`,
`src/pattern_engine.rs`, `src/config.rs` -/

/-- `EffectType` from `src/effects/mod.rs`. -/
inductive EffectType
  | strobe | solid | pulse | bursts | flash
  | wipeUp | wipeCenter | lightning | puddles | sparkle
  deriving Repr, DecidableEq

/-- An RGB colour triple (`[u8; 3]`). -/
structure Rgb where
  r : Nat
  g : Nat
  b : Nat
  deriving Repr, DecidableEq

/-- `BoardTarget` from `src/effects_engine.rs`. -/
structure BoardTarget where
  ip : String
  univ : Nat
  led_count : Nat
  deriving Repr, DecidableEq

/-- `EffectConfig` from `src/effects_engine.rs` (`bpm` is `f64`, modelled
over `ℚ`). -/
structure EffectConfig where
  effect_type : EffectType
  bpm : ℚ
  color : Rgb
  deriving Repr, DecidableEq

/-- `BoardInfo` from `src/pattern_engine.rs`. -/
structure BoardInfo where
  ip : String
  univ : Nat
  led_count : Nat
  deriving Repr, DecidableEq

/-- `PatternType` from `src/config.rs` (no ping-pong variant exists in the
source). -/
inductive PatternType
  | wave | waveReverse | alternate | outsideIn | centerOut | random
  deriving Repr, DecidableEq

/-! ## Pattern sequence generation — `src/pattern.rs` -/

/-- `PatternStep` from `src/pattern.rs`. -/
structure PatternStep where
  board_ids : List String
  deriving Repr, DecidableEq

/-- `PatternSequence` from `src/pattern.rs` (`total_duration_ms` is `u64`). -/
structure PatternSequence where
  steps : List PatternStep
  total_duration_ms : Nat
  deriving Repr, DecidableEq

/-- The `OutsideIn` arm of `transform_board_order`: pairs collapsing from
both ends to the centre, the middle element alone when `n` is odd. -/
def outsideInSteps (members : List String) : List (List String) :=
  let n := members.length
  (List.range ((n + 1) / 2)).map (fun i =>
    (members.get? i).toList
      ++ (if i ≠ n - 1 - i then (members.get? (n - 1 - i)).toList else []))

/-- `transform_board_order` from `src/pattern.rs`.  The `Random` arm shuffles
with the thread-local PRNG; that nondeterminism is the `shuffle` oracle
parameter (the source applies it exactly to the `Wave`-shaped list).  The
source's `CenterOut` arm calls `transform_board_order` on `OutsideIn` and
reverses; here both arms share `outsideInSteps`. -/
def transform_board_order (shuffle : List (List String) → List (List String))
    (members : List String) : PatternType → List (List String)
  | .wave => members.map (fun b => [b])
  | .waveReverse => members.reverse.map (fun b => [b])
  | .alternate =>
      let odds := (members.enum.filter (fun p => p.1 % 2 == 0)).map (·.2)
      let evens := (members.enum.filter (fun p => p.1 % 2 == 1)).map (·.2)
      [odds, evens]
  | .outsideIn => outsideInSteps members
  | .centerOut => (outsideInSteps members).reverse
  | .random => shuffle (members.map (fun b => [b]))

/-- `generate_sequence` from `src/pattern.rs`: `beat_duration_ms = 60000/bpm`,
`total_duration_ms = (beat_duration_ms / sync_rate) as u64` (the `f64 → u64`
cast truncates toward zero and saturates at 0, which `Int.floor` followed by
`Int.toNat` reproduces for every value the cast accepts). -/
def generate_sequence (shuffle : List (List String) → List (List String))
    (members : List String) (pattern : PatternType)
    (bpm sync_rate : ℚ) : PatternSequence :=
  let board_groups := transform_board_order shuffle members pattern
  let beat_duration_ms := 60000 / bpm
  let total_duration_ms := (beat_duration_ms / sync_rate).floor.toNat
  { steps := board_groups.map (fun board_ids => { board_ids := board_ids }),
    total_duration_ms := total_duration_ms }

/-! ## Pattern engine step subdivision — `src/pattern_engine.rs`,
`PatternEngine::run_one_cycle` -/

/-- `WAVE_PORTION` from `run_one_cycle` (`0.5`, exact in `f64` and in `ℚ`). -/
def WAVE_PORTION : ℚ := 1 / 2

/-- The `while subdivision_ms > max_step_ms && subdivision_ms > 1.0` halving
loop of `run_one_cycle`.  The source loop terminates because repeated halving
of a value eventually drops to `≤ 1`; the fuel (128 halvings, enough for any
`f64` magnitude) only serves to make the recursion structural. -/
def subdivLoop : Nat → ℚ → ℚ → ℚ
  | 0, subdivision_ms, _ => subdivision_ms
  | fuel + 1, subdivision_ms, max_step_ms =>
      if subdivision_ms > max_step_ms ∧ subdivision_ms > 1 then
        subdivLoop fuel (subdivision_ms / 2) max_step_ms
      else subdivision_ms

/-- The step interval chosen by `run_one_cycle`: for more than one step,
start from `total_ms` and halve while above `total_ms · WAVE_PORTION /
num_steps` (and above 1 ms); otherwise 0. -/
def stepIntervalMs (total_ms : ℚ) (num_steps : Nat) : ℚ :=
  if 1 < num_steps then
    let wave_duration_ms := total_ms * WAVE_PORTION
    let max_step_ms := wave_duration_ms / (num_steps : ℚ)
    subdivLoop 128 total_ms max_step_ms
  else 0

/-! ## Cue scheduler — `src/cue_scheduler.rs`

`run_scheduler` receives a cue list with an anchor instant, sorts it by
`fire_at`, and for each cue in order waits (coarse sleeps / fine sleeps /
busy spin) until the monotonic clock passes `anchor + fire_at`, polls the
stop flag, and dispatches: a `Stop` to the other engine followed by a
`Start` to the cue's engine.

The embedding makes the nondeterministic environment explicit:
* time is a `Nat` (monotonic clock ticks);
* `flag : Nat → Bool` is the `stop_flag` atomic read at a given instant;
* `slack k` is how far past its target instant the `k`-th busy-wait is
  observed to exit (≥ 0, uncontrolled);
* `gap k` is the time consumed dispatching and logging the `k`-th cue;
* `shuffle` is the thread-local PRNG shuffle used by `Random` patterns. -/

/-- `PatternCueConfig` from `src/cue_scheduler.rs` (the `HashMap<String,
BoardInfo>` becomes an association list). -/
structure PatternCueConfig where
  pattern_type : PatternType
  color : Rgb
  member_ids : List String
  board_info : List (String × BoardInfo)
  bpm : ℚ
  sync_rate : ℚ
  deriving Repr, DecidableEq

/-- `CueType` from `src/cue_scheduler.rs`. -/
inductive CueType
  | effect (config : EffectConfig) (boards : List BoardTarget)
  | pattern (pcfg : PatternCueConfig)
  deriving Repr, DecidableEq

/-- `ScheduledCue` from `src/cue_scheduler.rs` (`fire_at` is a `Duration`,
modelled in clock ticks). -/
structure ScheduledCue where
  fire_at : Nat
  label : String
  cue_type : CueType
  deriving Repr, DecidableEq

/-- The two engines the scheduler dispatches to. -/
inductive Engine
  | effects
  | patternEngine
  deriving Repr, DecidableEq

/-- The engine a cue starts. -/
def cueEngine : CueType → Engine
  | .effect _ _ => .effects
  | .pattern _ => .patternEngine

/-- The opposite engine. -/
def otherEngine : Engine → Engine
  | .effects => .patternEngine
  | .patternEngine => .effects

/-- The commands the scheduler can send: `EngineCommand::{Start,Stop}` to the
effects engine and `PatternCommand::{Start,Stop}` to the pattern engine. -/
inductive EngineMsg
  | effectsStop
  | effectsStart (config : EffectConfig) (boards : List BoardTarget)
  | patternStop
  | patternStart (sequence : PatternSequence) (color : Rgb)
      (boards : List (String × BoardInfo)) (is_random : Bool)
  deriving Repr, DecidableEq

/-- The `Stop` command addressed to an engine. -/
def stopMsg : Engine → EngineMsg
  | .effects => .effectsStop
  | .patternEngine => .patternStop

/-- Whether a message is a `Start` addressed to the given engine. -/
def isStartFor : EngineMsg → Engine → Bool
  | .effectsStart _ _, .effects => true
  | .patternStart _ _ _ _, .patternEngine => true
  | _, _ => false

/-- The dispatch arm of `run_scheduler` (the `match &cue.cue_type` block):
a pattern cue sends `Stop` to the effects engine then `Start` (with the
sequence generated by `generate_sequence`) to the pattern engine; an effect
cue sends `Stop` to the pattern engine then `Start` to the effects engine. -/
def dispatchCue (shuffle : List (List String) → List (List String)) :
    CueType → List EngineMsg
  | .pattern pcfg =>
      [.effectsStop,
       .patternStart
         (generate_sequence shuffle pcfg.member_ids pcfg.pattern_type
           pcfg.bpm pcfg.sync_rate)
         pcfg.color pcfg.board_info (pcfg.pattern_type == .random)]
  | .effect config boards =>
      [.patternStop, .effectsStart config boards]

/-- One dispatched cue in a scheduler run: the instant it fired, the cue,
and the engine commands sent. -/
structure SchedEntry where
  time : Nat
  cue : ScheduledCue
  msgs : List EngineMsg
  deriving Repr, DecidableEq

/-- The `'cue_loop` of `run_scheduler` over the already-sorted cue list.
For each cue: poll the stop flag (loop top and before every sleep — with a
once-raised-stays-raised flag a single poll at the current instant is
equivalent); wait until the clock passes `anchor + fire_at`, exiting the
busy spin at `max now (anchor + fire_at) + slack k`; poll the flag again
just before dispatching; dispatch and continue from that instant plus the
dispatch overhead `gap k`.  A raised flag discards the rest of the list. -/
def runCueLoop (shuffle : List (List String) → List (List String))
    (flag : Nat → Bool) (anchor : Nat) (slack gap : Nat → Nat) :
    List ScheduledCue → Nat → Nat → List SchedEntry
  | [], _, _ => []
  | c :: rest, k, now =>
      if flag now then []
      else
        let t := max now (anchor + c.fire_at) + slack k
        if flag t then []
        else
          { time := t, cue := c, msgs := dispatchCue shuffle c.cue_type }
            :: runCueLoop shuffle flag anchor slack gap rest (k + 1) (t + gap k)

/-- `CueScheduler::run_scheduler` handling one `Start` command: sort the
cues by `fire_at` (`sort_by_key`, a stable sort, modelled by insertion
sort), then run the cue loop from the current instant. -/
def run_scheduler (shuffle : List (List String) → List (List String))
    (flag : Nat → Bool) (anchor : Nat) (slack gap : Nat → Nat)
    (cues : List ScheduledCue) (now : Nat) : List SchedEntry :=
  runCueLoop shuffle flag anchor slack gap
    (List.insertionSort (fun a b => a.fire_at ≤ b.fire_at) cues) 0 now

/-! ## Program engine play timeline — `src/program_engine.rs`,
`ProgramEngine::run_loop`, `Play` arm, audio-sync handling

After resolving cues the engine computes the playback anchor, stores the
active targets, starts the cue scheduler, optionally sleeps, and invokes the
audio-play callback.  `audio_sync_delay_ms` is the signed config value. -/

/-- The instants of the three audio-sync-relevant actions of the `Play` arm,
measured on the same monotonic clock (`now` is the instant the anchor
computation runs; the in-between bookkeeping is timing-irrelevant and takes
no modelled time). -/
structure PlayTimeline where
  anchor : Nat
  scheduler_start_at : Nat
  audio_play_at : Nat
  deriving Repr, DecidableEq

/-- The `Play` arm's timing: `playback_start = now + |d|` when `d < 0`, else
`now`; the cue scheduler is started; when `d > 0` the engine sleeps `d`
milliseconds before emitting the audio-play callback. -/
def play_timeline (now : Nat) (audio_sync_delay_ms : Int) : PlayTimeline :=
  { anchor :=
      if audio_sync_delay_ms < 0 then now + audio_sync_delay_ms.natAbs
      else now,
    scheduler_start_at := now,
    audio_play_at :=
      now + (if audio_sync_delay_ms > 0 then audio_sync_delay_ms.toNat else 0) }

/-! ## Board actor — `src/actor.rs`, `BoardActor::run`, connect-failure arm -/

/-- `BoardState` from `src/board.rs`. -/
structure BoardState where
  id : String
  ip : String
  isOn : Bool
  brightness : Nat
  color : Rgb
  effect : Nat
  speed : Nat
  intensity : Nat
  transition : Nat
  connected : Bool
  preset : Option Nat
  led_count : Option Nat
  max_leds : Option Nat
  is_group : Option Bool
  member_ids : Option (List String)
  univ : Option Nat
  deriving Repr, DecidableEq

/-- `BoardState::new` from `src/board.rs`. -/
def BoardState.new (id ip : String) : BoardState :=
  { id := id, ip := ip, isOn := false, brightness := 128,
    color := ⟨255, 255, 255⟩, effect := 0, speed := 128, intensity := 128,
    transition := 0, connected := false, preset := none, led_count := none,
    max_leds := none, is_group := none, member_ids := none, univ := none }

/-- `BoardCommand` from `src/board.rs` (the `GetState` oneshot channel is
dropped from the embedding; the source field name `on` is the Lean keyword
`on`, rendered `isOn` throughout). -/
inductive BoardCommand
  | setPower (isOn : Bool) (transition : Nat)
  | setBrightness (brightness transition : Nat)
  | setColor (r g b transition : Nat)
  | setEffect (effect transition : Nat)
  | setSpeed (speed transition : Nat)
  | setIntensity (intensity transition : Nat)
  | setPreset (preset transition : Nat)
  | setLedCount (led_count : Nat)
  | setTransition (transition : Nat)
  | resetSegment
  | getState
  | shutdown
  | syncPowerState (isOn : Bool)
  | syncBrightnessState (brightness : Nat)
  | syncPresetState (preset : Nat)
  deriving Repr, DecidableEq

/-- What handling one mailbox command while disconnected does: the updated
cache, the WebSocket frames written (none — the actor has no connection),
whether a `GetState` reply was sent, how many state broadcasts were emitted,
and whether the actor terminated. -/
structure DisconnectedStep where
  state : BoardState
  wire_sends : List String
  replied : Bool
  broadcasts : Nat
  terminated : Bool
  deriving Repr, DecidableEq

/-- The command match inside the connect-failure arm of `BoardActor::run`:
`GetState` replies from the cache; `SetPower`, `SetBrightness`, `SetColor`,
`SetEffect`, `SetSpeed`, `SetIntensity` and `SetLedCount` update the cache
and broadcast it; `Shutdown` terminates; every other command (`SetPreset`,
`SetTransition`, `ResetSegment` and the three `Sync*` variants) falls into
the `_ => {}` arm and is ignored.  No branch writes to the wire. -/
def handle_command_while_disconnected (st : BoardState) :
    BoardCommand → DisconnectedStep
  | .getState => ⟨st, [], true, 0, false⟩
  | .setPower isOn _ => ⟨{ st with isOn := isOn }, [], false, 1, false⟩
  | .setBrightness bri _ => ⟨{ st with brightness := bri }, [], false, 1, false⟩
  | .setColor r g b _ => ⟨{ st with color := ⟨r, g, b⟩ }, [], false, 1, false⟩
  | .setEffect fx _ => ⟨{ st with effect := fx }, [], false, 1, false⟩
  | .setSpeed sx _ => ⟨{ st with speed := sx }, [], false, 1, false⟩
  | .setIntensity ix _ => ⟨{ st with intensity := ix }, [], false, 1, false⟩
  | .setLedCount n => ⟨{ st with led_count := some n }, [], false, 1, false⟩
  | .shutdown => ⟨st, [], false, 0, true⟩
  | _ => ⟨st, [], false, 0, false⟩

/-- The wait after a failed connect attempt in `BoardActor::run`: a plain
`sleep(Duration::from_secs(3))`.  The parameter records that the wait does
not depend on the process-wide `performance_mode` flag, which `actor.rs`
never reads. -/
def disconnect_retry_wait_secs (_performance_mode : Bool) : Nat := 3

/-! ## Group command fast path — `src/group.rs`, `execute_group_command` -/

/-- `GroupCommand` from `src/board.rs`. -/
inductive GroupCommand
  | setPower (isOn : Bool) (transition : Nat)
  | setBrightness (brightness transition : Nat)
  | setColor (r g b transition : Nat)
  | setEffect (effect transition : Nat)
  | setPreset (preset transition : Nat)
  deriving Repr, DecidableEq

/-- `PresetState` from `src/types.rs`. -/
structure PresetState where
  isOn : Bool
  brightness : Nat
  color : Rgb
  effect : Nat
  speed : Nat
  intensity : Nat
  transition : Option Nat
  deriving Repr, DecidableEq

/-- `WledPreset` from `src/types.rs`. -/
structure WledPreset where
  id : String
  name : String
  wled_slot : Nat
  description : Option String
  state : PresetState
  created_at : String
  deriving Repr, DecidableEq

/-- The `use_e131` test of `execute_group_command`:
`matches!(command, GroupCommand::SetPreset(_, _))` — only `SetPreset` takes
the E1.31 path; every other group command falls through to the per-member
WebSocket fan-out. -/
def useE131 : GroupCommand → Bool
  | .setPreset _ _ => true
  | _ => false

/-- The E1.31 arm of `execute_group_command` for `SetPreset`, as the pair
(result, `SyncPresetState` messages dispatched to member actors).  Inputs:
the group's transport entry (if any), the outcome of loading the preset
store, the requested slot, the per-destination UDP success oracle, the
group's member ids and the ids present in the board registry.  The
`Sync*State` fan-out runs only after the E1.31 send returned `Ok`. -/
def execute_group_set_preset (transport : Option E131RawTransport)
    (load_result : Except String (List WledPreset)) (slot : Nat)
    (udp_ok : String → Bool) (members registry : List String) :
    Except String Unit × List (String × Nat) :=
  match transport with
  | none => (.error "E1.31 transport not available", [])
  | some t =>
      match load_result with
      | .error e => (.error e, [])
      | .ok presets =>
          match presets.find? (fun p => p.wled_slot == slot) with
          | none => (.error "Preset slot not found", [])
          | some _ =>
              if sendDmxPacketOk udp_ok t then
                (.ok (),
                 (members.filter (fun m => registry.contains m)).map
                   (fun m => (m, slot)))
              else (.error "Failed to send to any boards", [])

/-! ## Preset save route — `src/routes/presets.rs`, `save_preset` -/

/-- `SavePresetRequest` from `src/types.rs`. -/
structure SavePresetRequest where
  name : String
  wled_slot : Nat
  board_id : Option String
  description : Option String
  state : Option PresetState
  deriving Repr, DecidableEq

/-- The default render state used when a save request carries none. -/
def default_preset_state : PresetState :=
  { isOn := true, brightness := 255, color := ⟨255, 255, 255⟩, effect := 0,
    speed := 128, intensity := 128, transition := some 0 }

/-- The outcome of `save_preset`: the created preset and the resulting store,
or an HTTP status with a message.  (The optional board HTTP sync that runs
after the store is written never changes the outcome.) -/
inductive SaveResult
  | ok (preset : WledPreset) (store : List WledPreset)
  | err (status : Nat) (message : String)
  deriving Repr, DecidableEq

/-- The auto-assignment loop of `save_preset` (`wled_slot == 0` requests):
`while presets.iter().any(|p| p.wled_slot == next_slot) && next_slot <= 250
{ next_slot += 1 }`.  The loop runs at most 250 iterations (the `≤ 250`
conjunct), so fuel 251 is exact. -/
def next_free_slot_loop (presets : List WledPreset) : Nat → Nat → Nat
  | 0, next_slot => next_slot
  | fuel + 1, next_slot =>
      if presets.any (fun p => p.wled_slot == next_slot) && next_slot ≤ 250 then
        next_free_slot_loop presets fuel (next_slot + 1)
      else next_slot

/-- `save_preset` from `src/routes/presets.rs`.  Inputs beyond the request:
storage availability, the result of `WledPreset::load_all`, the generated
UUID and timestamp, and whether `WledPreset::save_all` succeeds. -/
def save_preset (storage_available : Bool)
    (load_result : Except String (List WledPreset))
    (req : SavePresetRequest) (new_id created_at : String)
    (save_ok : Bool) : SaveResult :=
  if !storage_available then .err 503 "Storage not available"
  else
    match load_result with
    | .error e => .err 500 e
    | .ok presets =>
        let slot_result : Except (Nat × String) Nat :=
          if req.wled_slot > 0 then
            if req.wled_slot < 1 ∨ req.wled_slot > 250 then
              .error (400, "wled_slot must be between 1 and 250")
            else
              match presets.find? (fun p => p.wled_slot == req.wled_slot) with
              | some existing =>
                  .error (409, "Slot is already used by preset " ++ existing.name)
              | none => .ok req.wled_slot
          else
            let next_slot := next_free_slot_loop presets 251 1
            if next_slot > 250 then
              .error (500, "No available preset slots (1-250)")
            else .ok next_slot
        match slot_result with
        | .error (status, message) => .err status message
        | .ok wled_slot =>
            let preset : WledPreset :=
              { id := new_id, name := req.name, wled_slot := wled_slot,
                description := req.description,
                state := req.state.getD default_preset_state,
                created_at := created_at }
            if save_ok then .ok preset (presets ++ [preset])
            else .err 500 "Failed to save presets"

/-- The `wled_slot` uniqueness invariant on a preset store. -/
def slots_injective (presets : List WledPreset) : Prop :=
  presets.Pairwise (fun a b => a.wled_slot ≠ b.wled_slot)

/-! ## Audio file store — `src/audio.rs`, `AudioFile::{load, delete}` -/

/-- Whether `needle` occurs as a contiguous subsequence of `haystack`
(`str::contains` for a literal pattern). -/
def hasSubstr (needle : List Char) : List Char → Bool
  | [] => needle.isEmpty
  | c :: rest => needle.isPrefixOf (c :: rest) || hasSubstr needle rest

/-- The filename validation shared by `AudioFile::load` and
`AudioFile::delete`: reject any filename containing `".."`, `"/"` or a
backslash. -/
def filename_has_traversal (filename : String) : Bool :=
  hasSubstr ['.', '.'] filename.toList
    || filename.toList.contains '/'
    || filename.toList.contains '\\'

/-- A filesystem operation performed by the audio store. -/
inductive FsOp
  | existsCheck (path : String)
  | readFile (path : String)
  | removeFile (path : String)
  deriving Repr, DecidableEq

/-- `Path::join` for the flat layouts the audio store uses. -/
def pathJoin (dir file : String) : String := dir ++ "/" ++ file

/-- `AudioFile::load`: validate the filename first, then check existence and
read.  `fs` maps a path to its contents when the file exists.  Returns the
filesystem operations performed and the result. -/
def audio_load (fs : String → Option (List Nat)) (filename audio_path : String) :
    List FsOp × Except String (List Nat) :=
  if filename_has_traversal filename then
    ([], .error "Invalid filename: path traversal detected")
  else
    let file_path := pathJoin audio_path filename
    match fs file_path with
    | none => ([.existsCheck file_path], .error ("Audio file not found: " ++ filename))
    | some bytes => ([.existsCheck file_path, .readFile file_path], .ok bytes)

/-- `AudioFile::delete`: validate the filename first, then remove the file
when present, then remove its `.peaks.json` companion when present. -/
def audio_delete (fs : String → Option (List Nat)) (filename audio_path : String) :
    List FsOp × Except String Unit :=
  if filename_has_traversal filename then
    ([], .error "Invalid filename: path traversal detected")
  else
    let file_path := pathJoin audio_path filename
    let peaks_path := pathJoin audio_path (filename ++ ".peaks.json")
    let file_ops :=
      if (fs file_path).isSome then [FsOp.existsCheck file_path, FsOp.removeFile file_path]
      else [FsOp.existsCheck file_path]
    let peaks_ops :=
      if (fs peaks_path).isSome then [FsOp.existsCheck peaks_path, FsOp.removeFile peaks_path]
      else [FsOp.existsCheck peaks_path]
    (file_ops ++ peaks_ops, .ok ())

/-! ## Packet decomposition and concrete instances used by the theorems -/

/-- The 111 header bytes of `create_e131_packet` that precede the sequence
byte (they depend only on the DMX payload length). -/
def e131PreSeq (len : Nat) : List Nat :=
  [0x00, 0x10] ++ [0x00, 0x00] ++ acnPacketId
    ++ flagsLength (88 + len + 38 - 16)
    ++ [0x00, 0x00, 0x00, 0x04]
    ++ cidBytes
    ++ flagsLength (88 + len)
    ++ [0x00, 0x00, 0x00, 0x02]
    ++ sourceNameBytes
    ++ [100]
    ++ [0x00, 0x00]

/-- The 14 header bytes of `create_e131_packet` between the sequence byte
and the DMX payload: options, universe (big-endian), DMP header, start code
(they depend only on the universe and the payload length). -/
def e131PostSeq (u len : Nat) : List Nat :=
  [0x00] ++ beBytes16 u ++ flagsLength (11 + len)
    ++ [0x02] ++ [0xa1] ++ [0x00, 0x00] ++ [0x00, 0x01]
    ++ beBytes16 (len + 1) ++ [0x00]

/-- The `sort_by_key(|c| c.fire_at)` comparison is decidable. -/
instance : DecidableRel (fun a b : ScheduledCue => a.fire_at ≤ b.fire_at) :=
  fun _ _ => Nat.decLe _ _

instance : IsTotal ScheduledCue (fun a b => a.fire_at ≤ b.fire_at) :=
  ⟨fun a b => Nat.le_total a.fire_at b.fire_at⟩

instance : IsTrans ScheduledCue (fun a b => a.fire_at ≤ b.fire_at) :=
  ⟨fun _ _ _ => Nat.le_trans⟩

/-- A concrete effect cue (used to witness the scheduler theorems). -/
def sampleEffectCue : ScheduledCue :=
  { fire_at := 40, label := "strobe-a",
    cue_type := .effect { effect_type := .strobe, bpm := 120, color := ⟨255, 0, 0⟩ }
      [{ ip := "192.168.8.101", univ := 1, led_count := 60 }] }

/-- A concrete pattern cue (used to witness the scheduler theorems). -/
def samplePatternCue : ScheduledCue :=
  { fire_at := 10, label := "wave-a",
    cue_type := .pattern
      { pattern_type := .wave, color := ⟨255, 0, 0⟩,
        member_ids := ["b1", "b2"],
        board_info := [("b1", ⟨"192.168.8.101", 1, 60⟩), ("b2", ⟨"192.168.8.102", 2, 60⟩)],
        bpm := 120, sync_rate := 1 } }

/-- The two-board wave cue of the end-to-end scenario: `bpm = 120`,
`sync_rate = 1.0`, group `[b1, b2]`. -/
def waveCueConfig : PatternCueConfig :=
  { pattern_type := .wave, color := ⟨255, 0, 0⟩,
    member_ids := ["b1", "b2"],
    board_info := [("b1", ⟨"192.168.8.101", 1, 60⟩), ("b2", ⟨"192.168.8.102", 2, 60⟩)],
    bpm := 120, sync_rate := 1 }

/-- A two-destination transport (a group of two members), fresh sequence. -/
def twoBoardTransport : E131RawTransport :=
  { univ := 7, board_ips := ["192.168.8.101", "192.168.8.102"], seq := 0 }

/-- A preset store holding one preset in slot 5. -/
def sampleStore : List WledPreset :=
  [{ id := "id-0", name := "existing", wled_slot := 5, description := none,
     state := default_preset_state, created_at := "t0" }]

/-- A save request that asks for the already-used slot 5. -/
def conflictRequest : SavePresetRequest :=
  { name := "clash", wled_slot := 5, board_id := none, description := none,
    state := none }

/-- A save request with `wled_slot = 0` (the auto-assign encoding). -/
def autoSlotRequest : SavePresetRequest :=
  { name := "warm white", wled_slot := 0, board_id := none, description := none,
    state := none }


/-- A single-destination transport (the effects/pattern engines always
construct their transports with exactly one board IP). -/
def oneBoardTransport : E131RawTransport :=
  { univ := 1, board_ips := ["192.168.8.255"], seq := 5 }

/-- The scheduler entry produced by firing `sampleEffectCue` at instant 40. -/
def sampleEffectEntry : SchedEntry :=
  { time := 40, cue := sampleEffectCue, msgs := dispatchCue id sampleEffectCue.cue_type }

instance : IsTrans SchedEntry (fun a b => a.time ≤ b.time) :=
  ⟨fun _ _ _ => Nat.le_trans⟩

/-! ## Helper lemmas -/

section Helpers

variable (shuffle : List (List String) → List (List String))
variable (flag : Nat → Bool) (anchor : Nat) (slack gap : Nat → Nat)

lemma createE131Packet_decomp (t : E131RawTransport) (dmx : List Nat) :
    createE131Packet t dmx
      = e131PreSeq dmx.length ++ [t.seq] ++ e131PostSeq t.univ dmx.length ++ dmx := by
  simp [createE131Packet, e131PreSeq, e131PostSeq, List.append_assoc]

lemma e131PreSeq_length (len : Nat) : (e131PreSeq len).length = 111 := by
  simp [e131PreSeq, acnPacketId, cidBytes, sourceNameBytes, beBytes16, flagsLength]

lemma e131PostSeq_length (u len : Nat) : (e131PostSeq u len).length = 14 := by
  simp [e131PostSeq, beBytes16, flagsLength]

lemma runCueLoop_msgs :
    ∀ (cs : List ScheduledCue) (k now : Nat) (e : SchedEntry),
      e ∈ runCueLoop shuffle flag anchor slack gap cs k now →
      e.msgs = dispatchCue shuffle e.cue.cue_type := by
  intro cs
  induction cs with
  | nil => intro k now e h; simp [runCueLoop] at h
  | cons c rest ih =>
      intro k now e h
      simp only [runCueLoop] at h
      by_cases h1 : flag now = true
      · simp [h1] at h
      · simp only [h1, if_false, Bool.false_eq_true] at h
        by_cases h2 : flag (max now (anchor + c.fire_at) + slack k) = true
        · simp [h2] at h
        · simp only [h2, if_false, Bool.false_eq_true, List.mem_cons] at h
          rcases h with h | h
          · subst h; rfl
          · exact ih _ _ _ h

lemma runCueLoop_time_lb :
    ∀ (cs : List ScheduledCue) (k now : Nat) (e : SchedEntry),
      e ∈ runCueLoop shuffle flag anchor slack gap cs k now → now ≤ e.time := by
  intro cs
  induction cs with
  | nil => intro k now e h; simp [runCueLoop] at h
  | cons c rest ih =>
      intro k now e h
      simp only [runCueLoop] at h
      by_cases h1 : flag now = true
      · simp [h1] at h
      · simp only [h1, if_false, Bool.false_eq_true] at h
        by_cases h2 : flag (max now (anchor + c.fire_at) + slack k) = true
        · simp [h2] at h
        · simp only [h2, if_false, Bool.false_eq_true, List.mem_cons] at h
          rcases h with h | h
          · subst h
            calc now ≤ max now (anchor + c.fire_at) := Nat.le_max_left _ _
              _ ≤ max now (anchor + c.fire_at) + slack k := Nat.le_add_right _ _
          · have h3 := ih _ _ _ h
            calc now ≤ max now (anchor + c.fire_at) + slack k := by
                  exact Nat.le_trans (Nat.le_max_left _ _) (Nat.le_add_right _ _)
              _ ≤ max now (anchor + c.fire_at) + slack k + gap k := Nat.le_add_right _ _
              _ ≤ e.time := h3

lemma runCueLoop_time_chain :
    ∀ (cs : List ScheduledCue) (k now : Nat),
      List.Chain' (fun a b : SchedEntry => a.time ≤ b.time)
        (runCueLoop shuffle flag anchor slack gap cs k now) := by
  intro cs
  induction cs with
  | nil => intro k now; simp [runCueLoop]
  | cons c rest ih =>
      intro k now
      simp only [runCueLoop]
      by_cases h1 : flag now = true
      · simp [h1]
      · simp only [h1, if_false, Bool.false_eq_true]
        by_cases h2 : flag (max now (anchor + c.fire_at) + slack k) = true
        · simp [h2]
        · simp only [h2, if_false, Bool.false_eq_true]
          rw [List.chain'_cons']
          refine ⟨?_, ih _ _⟩
          intro y hy
          have hmem := List.mem_of_mem_head? hy
          have := runCueLoop_time_lb shuffle flag anchor slack gap rest
            (k + 1) (max now (anchor + c.fire_at) + slack k + gap k) y hmem
          exact Nat.le_trans (Nat.le_add_right _ _) this

lemma runCueLoop_cues_prefix :
    ∀ (cs : List ScheduledCue) (k now : Nat),
      ∃ suf, (runCueLoop shuffle flag anchor slack gap cs k now).map
        (fun e => e.cue) ++ suf = cs := by
  intro cs
  induction cs with
  | nil => intro k now; exact ⟨[], by simp [runCueLoop]⟩
  | cons c rest ih =>
      intro k now
      simp only [runCueLoop]
      by_cases h1 : flag now = true
      · exact ⟨c :: rest, by simp [h1]⟩
      · simp only [h1, if_false, Bool.false_eq_true]
        by_cases h2 : flag (max now (anchor + c.fire_at) + slack k) = true
        · exact ⟨c :: rest, by simp [h2]⟩
        · obtain ⟨suf, hsuf⟩ := ih (k + 1) (max now (anchor + c.fire_at) + slack k + gap k)
          exact ⟨suf, by simp [h2, hsuf]⟩

lemma runCueLoop_flag_false :
    ∀ (cs : List ScheduledCue) (k now : Nat) (e : SchedEntry),
      e ∈ runCueLoop shuffle flag anchor slack gap cs k now → flag e.time = false := by
  intro cs
  induction cs with
  | nil => intro k now e h; simp [runCueLoop] at h
  | cons c rest ih =>
      intro k now e h
      simp only [runCueLoop] at h
      by_cases h1 : flag now = true
      · simp [h1] at h
      · simp only [h1, if_false, Bool.false_eq_true] at h
        by_cases h2 : flag (max now (anchor + c.fire_at) + slack k) = true
        · simp [h2] at h
        · simp only [h2, if_false, Bool.false_eq_true, List.mem_cons] at h
          rcases h with h | h
          · subst h
            exact Bool.eq_false_iff.mpr h2
          · exact ih _ _ _ h

end Helpers

lemma subdivLoop_step {s m : ℚ} (fuel : Nat) (h : s > m ∧ s > 1) :
    subdivLoop (fuel + 1) s m = subdivLoop fuel (s / 2) m := by
  simp [subdivLoop, h]

lemma subdivLoop_stop {s m : ℚ} (fuel : Nat) (h : ¬(s > m ∧ s > 1)) :
    subdivLoop fuel s m = s := by
  cases fuel with
  | zero => rfl
  | succ n => simp [subdivLoop, h]

lemma stepIntervalMs_500_2 : stepIntervalMs 500 2 = 125 := by
  simp only [stepIntervalMs]
  rw [if_pos (by norm_num : 1 < 2)]
  rw [show (500 : ℚ) * WAVE_PORTION / ((2 : Nat) : ℚ) = 125 by norm_num [WAVE_PORTION]]
  rw [show (128 : Nat) = 127 + 1 from rfl, subdivLoop_step 127 (by norm_num)]
  rw [show (500 : ℚ) / 2 = 250 by norm_num]
  rw [show (127 : Nat) = 126 + 1 from rfl, subdivLoop_step 126 (by norm_num)]
  rw [show (250 : ℚ) / 2 = 125 by norm_num]
  exact subdivLoop_stop _ (by norm_num)

lemma generate_sequence_two_board_wave :
    generate_sequence id ["b1", "b2"] .wave 120 1
      = { steps := [{ board_ids := ["b1"] }, { board_ids := ["b2"] }],
          total_duration_ms := 500 } := by
  simp only [generate_sequence, transform_board_order]
  rw [show ((60000 : ℚ) / 120 / 1) = 500 by norm_num]
  rfl

lemma next_free_slot_loop_ge (presets : List WledPreset) :
    ∀ (fuel next : Nat), next ≤ next_free_slot_loop presets fuel next := by
  intro fuel
  induction fuel with
  | zero => intro next; exact Nat.le_refl _
  | succ n ih =>
      intro next
      rw [next_free_slot_loop]
      by_cases hc : (presets.any (fun p => p.wled_slot == next) && decide (next ≤ 250)) = true
      · rw [if_pos hc]
        exact Nat.le_trans (Nat.le_succ _) (ih (next + 1))
      · rw [if_neg hc]

lemma next_free_slot_loop_free (presets : List WledPreset) :
    ∀ (fuel next : Nat), 252 ≤ next + fuel →
      250 < next_free_slot_loop presets fuel next
      ∨ presets.any (fun p => p.wled_slot == next_free_slot_loop presets fuel next) = false := by
  intro fuel
  induction fuel with
  | zero => intro next h; left; simpa [next_free_slot_loop] using by omega
  | succ n ih =>
      intro next h
      rw [next_free_slot_loop]
      by_cases hc : (presets.any (fun p => p.wled_slot == next) && decide (next ≤ 250)) = true
      · rw [if_pos hc]
        exact ih (next + 1) (by omega)
      · rw [if_neg hc]
        rw [Bool.and_eq_true, not_and_or] at hc
        rcases hc with hc | hc
        · right; exact Bool.eq_false_iff.mpr hc
        · left
          have : ¬ next ≤ 250 := by
            intro hle
            exact hc (by simpa using hle)
          omega

lemma createE131Packet_get111 (t : E131RawTransport) (dmx : List Nat) :
    (createE131Packet t dmx)[111]? = some t.seq := by
  rw [createE131Packet_decomp, List.append_assoc, List.append_assoc]
  rw [List.getElem?_append_right (by rw [e131PreSeq_length])]
  simp [e131PreSeq_length]

lemma createE131Packet_get113 (t : E131RawTransport) (dmx : List Nat) :
    (createE131Packet t dmx)[113]? = some (t.univ / 256 % 256) := by
  rw [createE131Packet_decomp, List.append_assoc, List.append_assoc]
  rw [List.getElem?_append_right (by rw [e131PreSeq_length]; omega)]
  rw [e131PreSeq_length]
  show ([t.seq] ++ (e131PostSeq t.univ dmx.length ++ dmx))[2]? = _
  rw [List.getElem?_append_right (by simp)]
  simp only [List.length_singleton]
  rw [List.getElem?_append_left (by rw [e131PostSeq_length]; omega)]
  simp [e131PostSeq, beBytes16, flagsLength]

lemma createE131Packet_get114 (t : E131RawTransport) (dmx : List Nat) :
    (createE131Packet t dmx)[114]? = some (t.univ % 256) := by
  rw [createE131Packet_decomp, List.append_assoc, List.append_assoc]
  rw [List.getElem?_append_right (by rw [e131PreSeq_length]; omega)]
  rw [e131PreSeq_length]
  show ([t.seq] ++ (e131PostSeq t.univ dmx.length ++ dmx))[3]? = _
  rw [List.getElem?_append_right (by simp)]
  simp only [List.length_singleton]
  rw [List.getElem?_append_left (by rw [e131PostSeq_length]; omega)]
  simp [e131PostSeq, beBytes16, flagsLength]

lemma createE131Packet_get125 (t : E131RawTransport) (dmx : List Nat) :
    (createE131Packet t dmx)[125]? = some 0 := by
  rw [createE131Packet_decomp, List.append_assoc, List.append_assoc]
  rw [List.getElem?_append_right (by rw [e131PreSeq_length]; omega)]
  rw [e131PreSeq_length]
  show ([t.seq] ++ (e131PostSeq t.univ dmx.length ++ dmx))[14]? = _
  rw [List.getElem?_append_right (by simp)]
  simp only [List.length_singleton]
  rw [List.getElem?_append_left (by rw [e131PostSeq_length]; omega)]
  simp [e131PostSeq, beBytes16, flagsLength]

lemma createE131Packet_length (t : E131RawTransport) (dmx : List Nat)
    (hd : dmx.length = 512) : (createE131Packet t dmx).length = 638 := by
  rw [createE131Packet_decomp]
  simp [e131PreSeq_length, e131PostSeq_length, hd]

lemma createE131Packet_take111 (t : E131RawTransport) (dmx : List Nat) :
    (createE131Packet t dmx).take 111 = e131PreSeq dmx.length := by
  rw [createE131Packet_decomp, List.append_assoc, List.append_assoc]
  rw [show (111 : Nat) = (e131PreSeq dmx.length).length from (e131PreSeq_length _).symm]
  exact List.take_left _ _

lemma createE131Packet_middle (t : E131RawTransport) (dmx : List Nat) :
    ((createE131Packet t dmx).drop 112).take 14 = e131PostSeq t.univ dmx.length := by
  rw [createE131Packet_decomp]
  rw [show e131PreSeq dmx.length ++ [t.seq] ++ e131PostSeq t.univ dmx.length ++ dmx
      = (e131PreSeq dmx.length ++ [t.seq]) ++ (e131PostSeq t.univ dmx.length ++ dmx) by
    simp [List.append_assoc]]
  rw [show (112 : Nat) = (e131PreSeq dmx.length ++ [t.seq]).length by
    simp [e131PreSeq_length]]
  rw [List.drop_left]
  rw [show (14 : Nat) = (e131PostSeq t.univ dmx.length).length from (e131PostSeq_length _ _).symm]
  exact List.take_left _ _

lemma createE131Packet_drop126 (t : E131RawTransport) (dmx : List Nat) :
    (createE131Packet t dmx).drop 126 = dmx := by
  rw [createE131Packet_decomp]
  rw [show (126 : Nat)
      = (e131PreSeq dmx.length ++ [t.seq] ++ e131PostSeq t.univ dmx.length).length by
    simp [e131PreSeq_length, e131PostSeq_length]]
  exact List.drop_left _ _

/-! ## Claim theorems -/

/-- C1: On every cue the scheduler dispatches, the inter-engine handoff is
Stop then Start — a pattern cue sends `Stop` to the effects engine before
`Start` to the pattern engine, an effect cue sends `Stop` to the pattern
engine before `Start` to the effects engine, on every dispatched cue
(including consecutive cues for the same engine). -/
theorem scheduler_stop_before_start
    (shuffle : List (List String) → List (List String)) (flag : Nat → Bool)
    (anchor : Nat) (slack gap : Nat → Nat) (cues : List ScheduledCue) (now : Nat)
    (e : SchedEntry)
    (he : e ∈ run_scheduler shuffle flag anchor slack gap cues now) :
    ∃ m, e.msgs = [stopMsg (otherEngine (cueEngine e.cue.cue_type)), m]
      ∧ isStartFor m (cueEngine e.cue.cue_type) = true := by
  have hm : e.msgs = dispatchCue shuffle e.cue.cue_type :=
    runCueLoop_msgs shuffle flag anchor slack gap _ _ _ _ he
  cases hc : e.cue.cue_type with
  | effect config boards =>
      refine ⟨.effectsStart config boards, ?_, ?_⟩
      · rw [hm, hc]; rfl
      · rfl
  | pattern pcfg =>
      refine ⟨.patternStart
        (generate_sequence shuffle pcfg.member_ids pcfg.pattern_type
          pcfg.bpm pcfg.sync_rate)
        pcfg.color pcfg.board_info (pcfg.pattern_type == .random), ?_, ?_⟩
      · rw [hm, hc]; rfl
      · rfl

/-- Witness for C1: a concrete one-cue run fires `sampleEffectCue` at
instant 40 and its messages are `[patternStop, effectsStart …]`. -/
theorem scheduler_stop_before_start_witness :
    sampleEffectEntry
        ∈ run_scheduler id (fun _ => false) 0 (fun _ => 0) (fun _ => 1)
            [sampleEffectCue] 0
    ∧ ∃ m, sampleEffectEntry.msgs
          = [stopMsg (otherEngine (cueEngine sampleEffectEntry.cue.cue_type)), m]
        ∧ isStartFor m (cueEngine sampleEffectEntry.cue.cue_type) = true :=
  ⟨by decide,
   scheduler_stop_before_start id (fun _ => false) 0 (fun _ => 0) (fun _ => 1)
     [sampleEffectCue] 0 sampleEffectEntry (by decide)⟩

/-- C3: For every cue list given to `start`, cues are dispatched in
non-decreasing `fire_at` order with non-decreasing dispatch instants, and
once the stop flag is raised (at instant `T`, staying raised) no further cue
is dispatched: every dispatched cue fired strictly before `T`, so cues whose
fire time passes while the flag is raised are discarded, never fired late. -/
theorem scheduler_order_and_cancellation
    (shuffle : List (List String) → List (List String)) (flag : Nat → Bool)
    (anchor : Nat) (slack gap : Nat → Nat) (cues : List ScheduledCue)
    (now T : Nat) (hT : ∀ t, flag t = true ↔ T ≤ t) :
    List.Pairwise (fun a b : SchedEntry => a.time ≤ b.time)
        (run_scheduler shuffle flag anchor slack gap cues now)
    ∧ List.Pairwise (fun a b : SchedEntry => a.cue.fire_at ≤ b.cue.fire_at)
        (run_scheduler shuffle flag anchor slack gap cues now)
    ∧ ∀ e ∈ run_scheduler shuffle flag anchor slack gap cues now, e.time < T := by
  refine ⟨?_, ?_, ?_⟩
  · exact List.chain'_iff_pairwise.mp
      (runCueLoop_time_chain shuffle flag anchor slack gap _ 0 now)
  · have hsorted : List.Pairwise (fun a b : ScheduledCue => a.fire_at ≤ b.fire_at)
        (List.insertionSort (fun a b => a.fire_at ≤ b.fire_at) cues) :=
      List.sorted_insertionSort _ cues
    obtain ⟨suf, hsuf⟩ := runCueLoop_cues_prefix shuffle flag anchor slack gap
      (List.insertionSort (fun a b => a.fire_at ≤ b.fire_at) cues) 0 now
    rw [← hsuf] at hsorted
    have hmap := (List.pairwise_append.mp hsorted).1
    rw [List.pairwise_map] at hmap
    exact hmap
  · intro e he
    have hf := runCueLoop_flag_false shuffle flag anchor slack gap _ 0 now e he
    by_contra hcon
    push_neg at hcon
    have : flag e.time = true := (hT e.time).mpr hcon
    rw [this] at hf
    exact absurd hf (by simp)

/-- Witness for C3: a two-cue run with the stop flag raised at instant 1000;
both cues fire before 1000 and in order. -/
theorem scheduler_order_and_cancellation_witness :
    (∀ t, (fun u => decide (1000 ≤ u)) t = true ↔ 1000 ≤ t)
    ∧ (List.Pairwise (fun a b : SchedEntry => a.time ≤ b.time)
        (run_scheduler id (fun u => decide (1000 ≤ u)) 0 (fun _ => 0) (fun _ => 1)
          [sampleEffectCue, samplePatternCue] 0)
      ∧ List.Pairwise (fun a b : SchedEntry => a.cue.fire_at ≤ b.cue.fire_at)
        (run_scheduler id (fun u => decide (1000 ≤ u)) 0 (fun _ => 0) (fun _ => 1)
          [sampleEffectCue, samplePatternCue] 0)
      ∧ ∀ e ∈ run_scheduler id (fun u => decide (1000 ≤ u)) 0 (fun _ => 0) (fun _ => 1)
          [sampleEffectCue, samplePatternCue] 0, e.time < 1000) :=
  ⟨fun t => by simp,
   scheduler_order_and_cancellation id (fun u => decide (1000 ≤ u)) 0
     (fun _ => 0) (fun _ => 1) [sampleEffectCue, samplePatternCue] 0 1000
     (fun t => by simp)⟩

/-- C2 counterexample: the claim that `SetPreset`, `SetPower` and
`SetBrightness` group commands all bypass the WebSocket fan-out with exactly
one broadcast packet is false on the code — `use_e131` matches only
`SetPreset` (power and brightness group commands take the WebSocket
fan-out), and one `send_dmx_packet` call on a two-member transport emits two
UDP packets, not one. -/
theorem group_fast_path_counterexample :
    useE131 (GroupCommand.setPower true 0) = false
    ∧ useE131 (GroupCommand.setBrightness 128 0) = false
    ∧ (sendDmxPacket twoBoardTransport (List.replicate 512 0)).1.length = 2 :=
  ⟨rfl, rfl, by rw [show (sendDmxPacket twoBoardTransport (List.replicate 512 0)).1
      = (twoBoardTransport.board_ips.map
          (fun ip => (ip, createE131Packet twoBoardTransport (List.replicate 512 0)))) from rfl,
    List.length_map]; rfl⟩

/-- C2 (amended): only `SetPreset` group commands take the E1.31 path; for
those, one invocation of `send_dmx_packet` emits exactly one packet per
member IP of the group transport (unicast, addressed to the members), each
carrying the same frame. -/
theorem group_fast_path_amended :
    (∀ slot tt, useE131 (GroupCommand.setPreset slot tt) = true)
    ∧ (∀ cmd, useE131 cmd = true → ∃ slot tt, cmd = GroupCommand.setPreset slot tt)
    ∧ ∀ (t : E131RawTransport) (dmx : List Nat),
        (sendDmxPacket t dmx).1.map Prod.fst = t.board_ips
        ∧ ∀ p ∈ (sendDmxPacket t dmx).1, p.2 = createE131Packet t dmx := by
  refine ⟨fun _ _ => rfl, ?_, ?_⟩
  · intro cmd h
    cases cmd with
    | setPreset slot tt => exact ⟨slot, tt, rfl⟩
    | setPower _ _ => exact absurd h (by simp [useE131])
    | setBrightness _ _ => exact absurd h (by simp [useE131])
    | setColor _ _ _ _ => exact absurd h (by simp [useE131])
    | setEffect _ _ => exact absurd h (by simp [useE131])
  · intro t dmx
    constructor
    · rw [show (sendDmxPacket t dmx).1
          = t.board_ips.map (fun ip => (ip, createE131Packet t dmx)) from rfl,
        List.map_map]
      have : (Prod.fst ∘ fun ip : String => (ip, createE131Packet t dmx)) = id := by
        funext ip; rfl
      rw [this, List.map_id]
    · intro p hp
      simp only [sendDmxPacket, List.mem_map] at hp
      obtain ⟨ip, _, rfl⟩ := hp
      rfl

/-- Witness for C2 (amended): the `SetPreset` characterisation applied to a
concrete command. -/
theorem group_fast_path_amended_witness :
    useE131 (GroupCommand.setPreset 4 0) = true
    ∧ ∃ slot tt, GroupCommand.setPreset 4 0 = GroupCommand.setPreset slot tt :=
  ⟨rfl, group_fast_path_amended.2.1 (GroupCommand.setPreset 4 0) rfl⟩

/-- C4 counterexample: on a transport with two destinations (the group fast
path transport is built with all member IPs) one `send_dmx_packet` call
emits two consecutive packets whose sequence bytes are equal, so the
sequence byte does not advance by 1 between every pair of consecutive
packets emitted by the same transport. -/
theorem e131_sequence_byte_counterexample :
    (sendDmxPacket twoBoardTransport (List.replicate 512 0)).1.map
        (fun p => p.2[111]?) = [some 0, some 0]
    ∧ (0 + 1) % 256 ≠ 0 := by
  constructor
  · rw [show (sendDmxPacket twoBoardTransport (List.replicate 512 0)).1
        = twoBoardTransport.board_ips.map
            (fun ip => (ip, createE131Packet twoBoardTransport (List.replicate 512 0)))
        from rfl, List.map_map]
    show List.map _ ["192.168.8.101", "192.168.8.102"] = _
    rw [List.map_cons, List.map_cons, List.map_nil]
    simp only [Function.comp]
    rw [createE131Packet_get111]
    rfl
  · decide

/-- C4 (amended): every packet built by `create_e131_packet` follows the
prototype layout — 638 bytes for a 512-byte payload, the sequence byte at
offset 111, all other header bytes (0–110 and 112–125) byte-identical to
the packet built with any other sequence value, universe big-endian at
113–114, DMX start code 0 at offset 125, the payload from offset 126 — and
one `send_dmx_packet` invocation emits identical copies of that packet and
advances the sequence counter by exactly 1 modulo 256, so the sequence byte
advances by 1 (mod 256) between consecutive invocations (and between
consecutive packets whenever the transport has a single destination). -/
theorem e131_packet_layout (t : E131RawTransport) (dmx : List Nat)
    (hd : dmx.length = 512) :
    (createE131Packet t dmx).length = 638
    ∧ (createE131Packet t dmx)[111]? = some t.seq
    ∧ (createE131Packet t dmx).take 111
        = (createE131Packet { t with seq := 0 } dmx).take 111
    ∧ ((createE131Packet t dmx).drop 112).take 14
        = ((createE131Packet { t with seq := 0 } dmx).drop 112).take 14
    ∧ (createE131Packet t dmx)[113]? = some (t.univ / 256 % 256)
    ∧ (createE131Packet t dmx)[114]? = some (t.univ % 256)
    ∧ (createE131Packet t dmx)[125]? = some 0
    ∧ (createE131Packet t dmx).drop 126 = dmx
    ∧ (sendDmxPacket t dmx).2.seq = (t.seq + 1) % 256
    ∧ ∀ p ∈ (sendDmxPacket t dmx).1, p.2 = createE131Packet t dmx := by
  refine ⟨createE131Packet_length t dmx hd, createE131Packet_get111 t dmx,
    ?_, ?_, createE131Packet_get113 t dmx, createE131Packet_get114 t dmx,
    createE131Packet_get125 t dmx, createE131Packet_drop126 t dmx, rfl, ?_⟩
  · rw [createE131Packet_take111, createE131Packet_take111]
  · rw [createE131Packet_middle, createE131Packet_middle]
  · intro p hp
    simp only [sendDmxPacket, List.mem_map] at hp
    obtain ⟨ip, _, rfl⟩ := hp
    rfl

/-- Witness for C4 (amended): the layout at a concrete single-destination
transport and a concrete 512-byte payload. -/
theorem e131_packet_layout_witness :
    (List.replicate 512 (7 : Nat)).length = 512
    ∧ ((createE131Packet oneBoardTransport (List.replicate 512 7)).length = 638
      ∧ (createE131Packet oneBoardTransport (List.replicate 512 7))[111]? = some oneBoardTransport.seq
      ∧ (createE131Packet oneBoardTransport (List.replicate 512 7)).take 111
          = (createE131Packet { oneBoardTransport with seq := 0 } (List.replicate 512 7)).take 111
      ∧ ((createE131Packet oneBoardTransport (List.replicate 512 7)).drop 112).take 14
          = ((createE131Packet { oneBoardTransport with seq := 0 } (List.replicate 512 7)).drop 112).take 14
      ∧ (createE131Packet oneBoardTransport (List.replicate 512 7))[113]?
          = some (oneBoardTransport.univ / 256 % 256)
      ∧ (createE131Packet oneBoardTransport (List.replicate 512 7))[114]?
          = some (oneBoardTransport.univ % 256)
      ∧ (createE131Packet oneBoardTransport (List.replicate 512 7))[125]? = some 0
      ∧ (createE131Packet oneBoardTransport (List.replicate 512 7)).drop 126 = List.replicate 512 7
      ∧ (sendDmxPacket oneBoardTransport (List.replicate 512 7)).2.seq
          = (oneBoardTransport.seq + 1) % 256
      ∧ ∀ p ∈ (sendDmxPacket oneBoardTransport (List.replicate 512 7)).1,
          p.2 = createE131Packet oneBoardTransport (List.replicate 512 7)) :=
  ⟨List.length_replicate 512 7,
   e131_packet_layout oneBoardTransport (List.replicate 512 7)
     (List.length_replicate 512 7)⟩

/-- C5 counterexample: for the two-board wave at `bpm = 120`,
`sync_rate = 1.0` the generated sequence has 2 steps over 500 ms, and the
step subdivision chosen by `run_one_cycle` is 125 ms — not the claimed
250 ms (the halving rule `500 → 250 → 125` stops only once the value is at
most `(500 · 0.5) / 2 = 125`). -/
theorem two_board_wave_subdivision_counterexample :
    (generate_sequence id ["b1", "b2"] .wave 120 1).total_duration_ms = 500
    ∧ (generate_sequence id ["b1", "b2"] .wave 120 1).steps.length = 2
    ∧ stepIntervalMs 500 2 = 125
    ∧ stepIntervalMs 500 2 ≠ 250 := by
  refine ⟨by rw [generate_sequence_two_board_wave],
    by rw [generate_sequence_two_board_wave]; rfl, stepIntervalMs_500_2, ?_⟩
  rw [stepIntervalMs_500_2]
  norm_num

/-- C5 (amended): dispatching the two-board wave cue (`bpm = 120`,
`sync_rate = 1.0`, group `[b1, b2]`) starts the pattern engine with
`steps = [[b1], [b2]]` and `total_duration_ms = 500`, and the cycle is
executed with a step subdivision of 125 ms — obtained by halving from the
total duration until it is at most `(total · 0.5) / num_steps`. -/
theorem two_board_wave_dispatch :
    dispatchCue id (CueType.pattern waveCueConfig)
      = [EngineMsg.effectsStop,
         EngineMsg.patternStart
           { steps := [{ board_ids := ["b1"] }, { board_ids := ["b2"] }],
             total_duration_ms := 500 }
           ⟨255, 0, 0⟩ waveCueConfig.board_info false]
    ∧ stepIntervalMs 500 2 = 125 := by
  constructor
  · show [EngineMsg.effectsStop,
      EngineMsg.patternStart (generate_sequence id ["b1", "b2"] .wave 120 1)
        ⟨255, 0, 0⟩ waveCueConfig.board_info (PatternType.wave == PatternType.random)] = _
    rw [generate_sequence_two_board_wave]
    rfl
  · exact stepIntervalMs_500_2

/-- C6: the playback anchor and the audio-play callback obey the signed
`audio_sync_delay_ms`: a negative delay anchors the lights `|d|` ms after
`now` while the callback fires immediately after the scheduler starts; a
positive delay anchors at `now` and fires the callback `d` ms after the
scheduler starts; zero starts both together. -/
theorem play_timeline_audio_sync (now : Nat) (d : Int) :
    (d < 0 → (play_timeline now d).anchor = now + d.natAbs
      ∧ (play_timeline now d).audio_play_at = (play_timeline now d).scheduler_start_at)
    ∧ (0 < d → (play_timeline now d).anchor = now
      ∧ (play_timeline now d).audio_play_at
          = (play_timeline now d).scheduler_start_at + d.toNat)
    ∧ (d = 0 → (play_timeline now d).anchor = now
      ∧ (play_timeline now d).audio_play_at = (play_timeline now d).anchor) := by
  refine ⟨fun hd => ?_, fun hd => ?_, fun hd => ?_⟩
  · have h2 : ¬ d > 0 := by omega
    simp [play_timeline, hd, h2]
  · have h2 : ¬ d < 0 := by omega
    simp [play_timeline, hd, h2]
  · subst hd
    simp [play_timeline]

/-- Witness for C6: `audio_sync_delay_ms = -100` at `now = 1000` delays the
lights anchor to 1100 while the audio callback fires with the scheduler. -/
theorem play_timeline_audio_sync_witness :
    (-100 : Int) < 0
    ∧ ((play_timeline 1000 (-100)).anchor = 1000 + (-100 : Int).natAbs
      ∧ (play_timeline 1000 (-100)).audio_play_at
          = (play_timeline 1000 (-100)).scheduler_start_at) :=
  ⟨by decide, (play_timeline_audio_sync 1000 (-100)).1 (by decide)⟩

/-- C7 counterexample: with `performance_mode = true` the actor still waits
3 seconds (not 30) before retrying — `actor.rs` never reads the flag — and
a `SyncPresetState` command arriving during the wait is not serviced: it
falls into the ignore arm, leaving the cache untouched, replying nothing
and broadcasting nothing. -/
theorem actor_disconnect_counterexample :
    disconnect_retry_wait_secs true = 3
    ∧ disconnect_retry_wait_secs true ≠ 30
    ∧ handle_command_while_disconnected (BoardState.new "b1" "192.168.8.101")
        (BoardCommand.syncPresetState 4)
      = { state := BoardState.new "b1" "192.168.8.101", wire_sends := [],
          replied := false, broadcasts := 0, terminated := false } :=
  ⟨rfl, by decide, rfl⟩

/-- C7 (amended): after a failed connect attempt the actor waits 3 seconds
regardless of the `performance_mode` flag; during the wait no command sends
anything on the wire; `GetState` is answered from the cache and `Shutdown`
terminates the actor; `SetPower`, `SetBrightness` (and the other `Set`
state commands) are cached into the local state; `SetPreset`,
`SetTransition`, `ResetSegment` and the `Sync*` commands are ignored. -/
theorem actor_disconnect_behaviour :
    (∀ pm, disconnect_retry_wait_secs pm = 3)
    ∧ (∀ st cmd, (handle_command_while_disconnected st cmd).wire_sends = [])
    ∧ (∀ st, handle_command_while_disconnected st .getState
        = { state := st, wire_sends := [], replied := true, broadcasts := 0,
            terminated := false })
    ∧ (∀ st, handle_command_while_disconnected st .shutdown
        = { state := st, wire_sends := [], replied := false, broadcasts := 0,
            terminated := true })
    ∧ (∀ st b tt, (handle_command_while_disconnected st (.setPower b tt)).state
        = { st with isOn := b })
    ∧ (∀ st bri tt, (handle_command_while_disconnected st (.setBrightness bri tt)).state
        = { st with brightness := bri })
    ∧ (∀ st p, handle_command_while_disconnected st (.syncPresetState p)
        = { state := st, wire_sends := [], replied := false, broadcasts := 0,
            terminated := false })
    ∧ (∀ st b, handle_command_while_disconnected st (.syncPowerState b)
        = { state := st, wire_sends := [], replied := false, broadcasts := 0,
            terminated := false })
    ∧ (∀ st bri, handle_command_while_disconnected st (.syncBrightnessState bri)
        = { state := st, wire_sends := [], replied := false, broadcasts := 0,
            terminated := false })
    ∧ (∀ st p tt, handle_command_while_disconnected st (.setPreset p tt)
        = { state := st, wire_sends := [], replied := false, broadcasts := 0,
            terminated := false }) := by
  refine ⟨fun _ => rfl, fun st cmd => ?_, fun _ => rfl, fun _ => rfl,
    fun _ _ _ => rfl, fun _ _ _ => rfl, fun _ _ => rfl, fun _ _ => rfl,
    fun _ _ => rfl, fun _ _ _ => rfl⟩
  cases cmd <;> rfl

/-- C9: the `SetPreset` E1.31 fast path is atomic with respect to the actor
cache synchronisation — whenever `execute_group_command` returns an error
(missing transport, failed preset load, unknown slot, failed send) no
`SyncPresetState` message is dispatched, the unknown-slot and failed-send
cases do return errors, and conversely any dispatched sync message implies
the broadcast succeeded. -/
theorem group_set_preset_atomic (transport : Option E131RawTransport)
    (load_result : Except String (List WledPreset)) (slot : Nat)
    (udp_ok : String → Bool) (members registry : List String) :
    ((∃ e, (execute_group_set_preset transport load_result slot udp_ok members
        registry).1 = .error e) →
      (execute_group_set_preset transport load_result slot udp_ok members
        registry).2 = [])
    ∧ (∀ presets, load_result = .ok presets →
        presets.find? (fun p => p.wled_slot == slot) = none →
        ∃ e, (execute_group_set_preset transport load_result slot udp_ok members
          registry).1 = .error e)
    ∧ (∀ t, transport = some t → sendDmxPacketOk udp_ok t = false →
        ∃ e, (execute_group_set_preset transport load_result slot udp_ok members
          registry).1 = .error e)
    ∧ ((execute_group_set_preset transport load_result slot udp_ok members
          registry).2 ≠ [] →
        (execute_group_set_preset transport load_result slot udp_ok members
          registry).1 = .ok ()) := by
  refine ⟨?_, ?_, ?_, ?_⟩
  · intro ⟨e, he⟩
    cases transport with
    | none => rfl
    | some t =>
        cases load_result with
        | error msg => rfl
        | ok presets =>
            cases hf : presets.find? (fun p => p.wled_slot == slot) with
            | none => simp [execute_group_set_preset, hf]
            | some p =>
                by_cases hs : sendDmxPacketOk udp_ok t = true
                · exact absurd he (by simp [execute_group_set_preset, hf, hs])
                · simp [execute_group_set_preset, hf, hs]
  · intro presets hlr hf
    subst hlr
    cases transport with
    | none => exact ⟨_, rfl⟩
    | some t => exact ⟨"Preset slot not found", by simp [execute_group_set_preset, hf]⟩
  · intro t ht hs
    subst ht
    cases load_result with
    | error msg => exact ⟨_, rfl⟩
    | ok presets =>
        cases hf : presets.find? (fun p => p.wled_slot == slot) with
        | none =>
            exact ⟨"Preset slot not found", by simp [execute_group_set_preset, hf]⟩
        | some p =>
            exact ⟨"Failed to send to any boards",
              by simp [execute_group_set_preset, hf, hs]⟩
  · intro hne
    cases transport with
    | none => exact absurd rfl hne
    | some t =>
        cases load_result with
        | error msg => exact absurd rfl hne
        | ok presets =>
            cases hf : presets.find? (fun p => p.wled_slot == slot) with
            | none => exact absurd (by simp [execute_group_set_preset, hf]) hne
            | some p =>
                by_cases hs : sendDmxPacketOk udp_ok t = true
                · simp [execute_group_set_preset, hf, hs]
                · exact absurd (by simp [execute_group_set_preset, hf, hs]) hne

/-- Witness for C9: a store without slot 4 makes the fast path fail and
dispatch no sync message. -/
theorem group_set_preset_atomic_witness :
    (List.find? (fun p => p.wled_slot == 4) ([] : List WledPreset) = none)
    ∧ (∃ e, (execute_group_set_preset (some oneBoardTransport)
        (.ok []) 4 (fun _ => true) ["b1"] ["b1"]).1 = .error e) :=
  ⟨rfl,
   (group_set_preset_atomic (some oneBoardTransport) (.ok []) 4
     (fun _ => true) ["b1"] ["b1"]).2.1 [] rfl rfl⟩

/-- C10: for every filename containing `".."`, `"/"` or a backslash,
`AudioFile::load` and `AudioFile::delete` return an error before performing
any filesystem access (the operation trace is empty), for every filesystem
state and audio directory. -/
theorem audio_path_traversal_rejected (fs : String → Option (List Nat))
    (filename audio_path : String)
    (h : hasSubstr ['.', '.'] filename.toList = true
      ∨ filename.toList.contains '/' = true
      ∨ filename.toList.contains '\\' = true) :
    (audio_load fs filename audio_path).1 = []
    ∧ (∃ e, (audio_load fs filename audio_path).2 = .error e)
    ∧ (audio_delete fs filename audio_path).1 = []
    ∧ (∃ e, (audio_delete fs filename audio_path).2 = .error e) := by
  have hv : filename_has_traversal filename = true := by
    unfold filename_has_traversal
    rcases h with h | h | h
    · simp only [String.toList] at h
      simp [h]
    · have hm : '/' ∈ filename.data := by simpa using h
      simp [hm]
    · have hm : '\\' ∈ filename.data := by simpa using h
      simp [hm]

  refine ⟨?_, ⟨"Invalid filename: path traversal detected", ?_⟩, ?_,
    ⟨"Invalid filename: path traversal detected", ?_⟩⟩ <;>
    simp [audio_load, audio_delete, hv]

/-- Witness for C10: the classic `"../etc/passwd"` traversal filename is
rejected by both operations with no filesystem access. -/
theorem audio_path_traversal_rejected_witness :
    (hasSubstr ['.', '.'] ("../etc/passwd").toList = true
      ∨ ("../etc/passwd").toList.contains '/' = true
      ∨ ("../etc/passwd").toList.contains '\\' = true)
    ∧ ((audio_load (fun _ => none) "../etc/passwd" "audio").1 = []
      ∧ (∃ e, (audio_load (fun _ => none) "../etc/passwd" "audio").2 = .error e)
      ∧ (audio_delete (fun _ => none) "../etc/passwd" "audio").1 = []
      ∧ (∃ e, (audio_delete (fun _ => none) "../etc/passwd" "audio").2 = .error e)) :=
  ⟨Or.inl (by decide),
   audio_path_traversal_rejected (fun _ => none) "../etc/passwd" "audio"
     (Or.inl (by decide))⟩

/-- C8 counterexample: a save request with `wled_slot = 0` — outside 1..250 —
does not fail with 400: it succeeds, auto-assigning the lowest free slot. -/
theorem save_preset_auto_slot_counterexample :
    autoSlotRequest.wled_slot = 0
    ∧ save_preset true (.ok []) autoSlotRequest "uuid-1" "t1" true
        = .ok { id := "uuid-1", name := "warm white", wled_slot := 1,
                description := none, state := default_preset_state,
                created_at := "t1" }
            [{ id := "uuid-1", name := "warm white", wled_slot := 1,
               description := none, state := default_preset_state,
               created_at := "t1" }] :=
  ⟨rfl, rfl⟩

/-- C8 (amended): `save_preset` enforces slot discipline — an explicit slot
already in use fails with 409 (the store is only written on the `ok`
outcome, so an error leaves it unchanged); an explicit slot above 250 fails
with 400; a slot of 0 auto-assigns; and every successful save appends one
preset whose slot, in 1..250, collides with no existing preset, preserving
injectivity of `wled_slot` across the store. -/
theorem save_preset_slot_discipline (presets : List WledPreset)
    (req : SavePresetRequest) (new_id created_at : String) (save_ok : Bool) :
    (1 ≤ req.wled_slot → req.wled_slot ≤ 250 →
      (∃ q ∈ presets, q.wled_slot = req.wled_slot) →
      ∃ msg, save_preset true (.ok presets) req new_id created_at save_ok
        = .err 409 msg)
    ∧ (250 < req.wled_slot →
      ∃ msg, save_preset true (.ok presets) req new_id created_at save_ok
        = .err 400 msg)
    ∧ (∀ p store, slots_injective presets →
      save_preset true (.ok presets) req new_id created_at save_ok = .ok p store →
      slots_injective store ∧ store = presets ++ [p]
        ∧ 1 ≤ p.wled_slot ∧ p.wled_slot ≤ 250) := by
  refine ⟨?_, ?_, ?_⟩
  · intro h1 h2 h3
    obtain ⟨q, hq, hqs⟩ := h3
    have hf : (presets.find? (fun p => p.wled_slot == req.wled_slot)).isSome :=
      List.find?_isSome.mpr ⟨q, hq, by simp [hqs]⟩
    obtain ⟨r, hr⟩ := Option.isSome_iff_exists.mp hf
    have hgt : req.wled_slot > 0 := h1
    refine ⟨"Slot is already used by preset " ++ r.name, ?_⟩
    simp [save_preset, hgt, hr]
    rw [if_neg (show ¬(req.wled_slot = 0 ∨ 250 < req.wled_slot) by omega)]
  · intro h1
    have hgt : req.wled_slot > 0 := by omega
    refine ⟨"wled_slot must be between 1 and 250", ?_⟩
    simp [save_preset, hgt]
    rw [if_pos (show req.wled_slot = 0 ∨ 250 < req.wled_slot by omega)]
  · intro p store hinj hok
    simp only [save_preset, Bool.not_true] at hok
    rw [if_neg (by simp)] at hok
    by_cases hslot : req.wled_slot > 0
    · rw [if_pos hslot] at hok
      by_cases hbad : req.wled_slot < 1 ∨ req.wled_slot > 250
      · rw [if_pos hbad] at hok
        exact absurd hok (by simp)
      · rw [if_neg hbad] at hok
        cases hf : presets.find? (fun q => q.wled_slot == req.wled_slot) with
        | some r =>
            rw [hf] at hok
            exact absurd hok (by simp)
        | none =>
            rw [hf] at hok
            by_cases hsv : save_ok = true
            · rw [hsv] at hok
              simp only [if_true] at hok
              injection hok with hp hs
              subst hp
              subst hs
              refine ⟨?_, rfl, ?_, ?_⟩
              · rw [slots_injective, List.pairwise_append]
                refine ⟨hinj, List.pairwise_singleton _ _, ?_⟩
                intro a ha b hb
                rw [List.mem_singleton] at hb
                subst hb
                have := List.find?_eq_none.mp hf a ha
                simpa using this
              · show 1 ≤ req.wled_slot
                omega
              · show req.wled_slot ≤ 250
                omega
            · replace hsv : save_ok = false := by
                cases save_ok
                · rfl
                · exact absurd rfl hsv
              rw [hsv] at hok
              exact absurd hok (by simp)
    · rw [if_neg hslot] at hok
      by_cases hgt : next_free_slot_loop presets 251 1 > 250
      · rw [if_pos hgt] at hok
        exact absurd hok (by simp)
      · rw [if_neg hgt] at hok
        by_cases hsv : save_ok = true
        · rw [hsv] at hok
          simp only [if_true] at hok
          injection hok with hp hs
          subst hp
          subst hs
          have hfree := next_free_slot_loop_free presets 251 1 (by omega)
          have hge := next_free_slot_loop_ge presets 251 1
          rcases hfree with hfree | hfree
          · exact absurd hfree hgt
          · refine ⟨?_, rfl, ?_, ?_⟩
            · rw [slots_injective, List.pairwise_append]
              refine ⟨hinj, List.pairwise_singleton _ _, ?_⟩
              intro a ha b hb
              rw [List.mem_singleton] at hb
              subst hb
              have := List.any_eq_false.mp hfree a ha
              simpa using this
            · show 1 ≤ next_free_slot_loop presets 251 1
              omega
            · show next_free_slot_loop presets 251 1 ≤ 250
              omega
        · replace hsv : save_ok = false := by
            cases save_ok
            · rfl
            · exact absurd rfl hsv
          rw [hsv] at hok
          exact absurd hok (by simp)

/-- Witness for C8 (amended): saving into the already-used slot 5 of a
one-preset store fails with 409. -/
theorem save_preset_slot_discipline_witness :
    (1 ≤ conflictRequest.wled_slot ∧ conflictRequest.wled_slot ≤ 250
      ∧ ∃ q ∈ sampleStore, q.wled_slot = conflictRequest.wled_slot)
    ∧ ∃ msg, save_preset true (.ok sampleStore) conflictRequest "uuid-2" "t2" true
        = .err 409 msg :=
  ⟨⟨by decide, by decide, ⟨sampleStore.head (by decide), by decide, by decide⟩⟩,
   (save_preset_slot_discipline sampleStore conflictRequest "uuid-2" "t2" true).1
     (by decide) (by decide)
     ⟨sampleStore.head (by decide), by decide, by decide⟩⟩
